import Mathlib

/-!
Verification model of the crypto-ai-bot repository.

The definitions below are a shallow embedding of the decision, reconciliation,
persistence and notification layers of `crypto_ai_backtest_multi.py`,
`crypto_signal.py`, `utils/signals.py` and `utils/notify.py`.  Prices and
indicator values are modelled as rationals; pandas boolean series become
`List Bool`; fallible Python code (exceptions) returns `Except`/`Option`;
files become lists of lines or association lists.
-/

set_option autoImplicit false
set_option linter.unusedVariables false

namespace CryptoBot

/-! ## Bars and indicator columns (`crypto_ai_backtest_multi.py`)

A `Bar` carries the per-row columns of the feature dataframe that the
decision layer reads: `Close`, `bb_low`, `bb_high` and `ATR`. -/

structure Bar where
  close : ℚ
  bbLow : ℚ
  bbHigh : ℚ
  atr : ℚ
deriving DecidableEq, Repr

/-- Python `entries = df['Close'] <= df['bb_low']` (line 113). -/
def entriesOf (df : List Bar) : List Bool :=
  df.map (fun b => decide (b.close ≤ b.bbLow))

/-- Python `exits = df['Close'] >= df['bb_high']` (line 114). -/
def exitsOf (df : List Bar) : List Bool :=
  df.map (fun b => decide (b.bbHigh ≤ b.close))

/-- Python `Series.shift(1).fillna(False)` on a boolean series: every value
moves one position later, the first becomes `False`, the last is discarded. -/
def shift1 : List Bool → List Bool
  | [] => []
  | x :: xs => false :: (x :: xs).dropLast

/-- Python `entries & (ai_signal == 1)` (line 129, before the shift). -/
def combinedOf (df : List Bar) (ai : List Int) : List Bool :=
  List.zipWith (fun e a => e && decide (a = 1)) (entriesOf df) ai

/-- Python `final_entries = (entries & (ai_signal == 1)).shift(1).fillna(False)` (line 129). -/
def finalEntriesOf (df : List Bar) (ai : List Int) : List Bool :=
  shift1 (combinedOf df ai)

/-- Python `final_exits = exits.shift(1).fillna(False)` (line 130). -/
def finalExitsOf (df : List Bar) : List Bool :=
  shift1 (exitsOf df)

/-- Python `series.iloc[-1]` on a boolean series (guarded in the source by a length
check, so the default for the empty list is never observed). -/
def ilocNeg1 (xs : List Bool) : Bool := xs.getLastD false

/-- Python `series.iloc[-2]`. -/
def ilocNeg2 (xs : List Bool) : Bool := xs.dropLast.getLastD false

/-- Lines 155-166: the BUY transition fires when
`len(final_entries) >= 2 and final_entries.iloc[-1] and not final_entries.iloc[-2]`. -/
def buyEdge (df : List Bar) (ai : List Int) : Bool :=
  let fe := finalEntriesOf df ai
  decide (2 ≤ fe.length) && ilocNeg1 fe && !ilocNeg2 fe

/-- Lines 155-172: the SELL transition fires when
`len(final_entries) >= 2 and final_exits.iloc[-1] and not final_exits.iloc[-2]`
(the length guard in the source is on `final_entries` for both transitions). -/
def sellEdge (df : List Bar) (ai : List Int) : Bool :=
  let fe := finalEntriesOf df ai
  let fx := finalExitsOf df
  decide (2 ≤ fe.length) && ilocNeg1 fx && !ilocNeg2 fx

/-- Python `ATR_MULTIPLIER = 1.5` (line 22). -/
def ATR_MULTIPLIER : ℚ := 3 / 2

/-- Python `df['Close'].iloc[-1]` of the feature dataframe (line 161). -/
def lastClose (df : List Bar) : ℚ := (df.map Bar.close).getLastD 0

/-- Python `df['bb_high'].iloc[-1]` (line 162). -/
def lastBBHigh (df : List Bar) : ℚ := (df.map Bar.bbHigh).getLastD 0

/-- Python `df['bb_low'].iloc[-1]` (line 163). -/
def lastBBLow (df : List Bar) : ℚ := (df.map Bar.bbLow).getLastD 0

/-- Python `df['ATR'].iloc[-1]` (line 164). -/
def lastATR (df : List Bar) : ℚ := (df.map Bar.atr).getLastD 0

/-- The message strings appended to `sigs` (lines 166-177), kept structured so
that equality of messages is decidable exactly as string equality is in the
source (the rendered fields determine the message). -/
inductive Msg where
  | buy (sym : String) (price bollTarget atrTarget : ℚ)
  | sell (sym : String) (price bollTarget atrTarget : ℚ)
deriving DecidableEq, Repr

/-- Lines 153-177: the per-symbol `sigs` list.  Both transitions are tested
independently, so a bar where both fire contributes a BUY and a SELL message. -/
def sigsOf (df : List Bar) (ai : List Int) (sym : String) : List Msg :=
  (if buyEdge df ai then
    [Msg.buy sym (lastClose df) (lastBBHigh df) (lastClose df + ATR_MULTIPLIER * lastATR df)]
  else []) ++
  (if sellEdge df ai then
    [Msg.sell sym (lastClose df) (lastBBLow df) (lastClose df - ATR_MULTIPLIER * lastATR df)]
  else [])

/-! ## The function `decide_signal` (`crypto_signal.py`, lines 155-170)

`compute_technical_signals` exposes only the latest bar's `entry` and `exit`
booleans; `decide_signal` combines them with the optional ML prediction.
There is no prior-bar input: the rule is level-triggered. -/

def decide_signal (entry exitB : Bool) (ml_pred : Option Int) : String :=
  if ml_pred ≠ none ∧ ml_pred = some 1 ∧ entry = true then "BUY"
  else if exitB = true then "SELL"
  else "HOLD"

/-! ## The backtest reconciliation loop (`crypto_ai_backtest_multi.py`, lines 187-200)

`last_signals` is a JSON object mapping a symbol to the last message string
stored for it; it is modelled as an association list from symbols to `Msg`.
Python dict assignment `d[k] = v` replaces the value of an existing key in
place, or appends a fresh key at the end. -/

def upsert {α : Type} (m : List (String × α)) (k : String) (v : α) : List (String × α) :=
  match m with
  | [] => [(k, v)]
  | (k', v') :: rest => if k' = k then (k, v) :: rest else (k', v') :: upsert rest k v

/-- State threaded through the loop of lines 188-196: the mutating
`last_signals` dict and the `new_signals` list. -/
structure ReconSt where
  last : List (String × Msg)
  newSignals : List Msg
deriving DecidableEq, Repr

/-- One iteration of `for s in sigs` (lines 188-196).  Line 189 assigns into
`results`, a name that is bound nowhere in the module, so in Python the
iteration raises `NameError` before the deduplication of lines 190-196 can
run.  `resultsBound` records whether a binding for `results` exists; in the
source it does not, and `sigLoopIter` below fixes it to `false`. -/
def sigLoopIterWith (resultsBound : Bool) (sym : String) (st : ReconSt) (s : Msg) :
    Except String ReconSt :=
  if resultsBound = false then
    Except.error "NameError: name results is not defined"
  else
    let prev := st.last.lookup sym
    if prev ≠ some s then
      Except.ok { last := upsert st.last sym s, newSignals := st.newSignals ++ [s] }
    else
      Except.ok st

/-- The loop iteration as the source executes it (`results` unbound). -/
def sigLoopIter (sym : String) (st : ReconSt) (s : Msg) : Except String ReconSt :=
  sigLoopIterWith false sym st s

/-- Python `for s in sigs:` (line 188) over one symbol's message list. -/
def processSigs (sym : String) (st : ReconSt) (sigs : List Msg) : Except String ReconSt :=
  match sigs with
  | [] => Except.ok st
  | s :: rest => do
    let st' ← sigLoopIter sym st s
    processSigs sym st' rest

/-- The per-symbol portion of `analyze_and_backtest` relevant to
reconciliation: each processed symbol contributes its `sigs` list, and the
loop of lines 188-196 folds them through the shared state.  The run starts
from the loaded `last_signals` (line 100) and an empty `new_signals`
(line 101); afterwards line 200 persists `st.last` wholesale. -/
def runReconcile (prior : List (String × Msg)) (perSym : List (String × List Msg)) :
    Except String ReconSt :=
  go { last := prior, newSignals := [] } perSym
where
  go (st : ReconSt) : List (String × List Msg) → Except String ReconSt
    | [] => Except.ok st
    | (sym, sigs) :: rest => do
      let st' ← processSigs sym st sigs
      go st' rest

/-- The deduplication logic of lines 190-196 in isolation, as written (the
code that would run if line 189 did not raise): used to state what the
comment above it, "Append only truly new signals (prevent duplicates)",
describes. -/
def dedupStep (sym : String) (st : ReconSt) (s : Msg) : ReconSt :=
  if st.last.lookup sym ≠ some s then
    { last := upsert st.last sym s, newSignals := st.newSignals ++ [s] }
  else
    st

/-! ## The `crypto_signal.py` main process

The run-level behaviour of `main()` (lines 173-289): the stored
`summary.json`, the two text files, `last_signals.json`, and the
notification counters.  The file contents are lists of lines; the
per-symbol outcome of the local computation loop is an `Item` (the dict
built at line 231).  Price formatting (`%.6f`) is abstracted as a
formatter argument. -/

/-- Python `SYMBOLS = ["BTC", "ETH", "XRP", "GALA"]` (line 45). -/
def SYMBOLS : List String := ["BTC", "ETH", "XRP", "GALA"]

/-- A summary entry: `{"symbol": sym, "signal": sig, "price": price, "time": ts}`
(line 231).  `price` is `None` when the close is missing or `0.0` (the
source computes `tech.get("close") or None`); `time` may be absent when the
item comes from a foreign `summary.json`. -/
structure Item where
  symbol : String
  signal : String
  price : Option ℚ
  time : Option String
deriving DecidableEq, Repr

/-- A value of `last_signals.json`: `{"signal": sig, "price": price, "time": ts}`
(lines 240 and 264). -/
structure LastEntry where
  signal : String
  price : Option ℚ
  time : String
deriving DecidableEq, Repr

/-- The `summary` dict with its `BUY`/`SELL`/`HOLD` groups. -/
structure Summary where
  buy : List Item
  sell : List Item
  hold : List Item
deriving DecidableEq, Repr

/-- Python truthiness of the price in `f"..." if price else f"..."`:
`None` and `0.0` are falsy. -/
def truthyPrice : Option ℚ → Option ℚ
  | none => none
  | some p => if p = 0 then none else some p

/-- The line written by `write_line` at lines 234/237/261/263:
`ts | sym | sig | $price` when the price is truthy, else `ts | sym | sig`. -/
def lineOf (fmt : ℚ → String) (ts sym sig : String) (price : Option ℚ) : String :=
  match truthyPrice price with
  | some p => ts ++ " | " ++ sym ++ " | " ++ sig ++ " | $" ++ fmt p
  | none => ts ++ " | " ++ sym ++ " | " ++ sig

/-- Python `sig in ("BUY", "SELL")` (line 233). -/
def isActionable (sig : String) : Bool := sig = "BUY" || sig = "SELL"

/-- The local-computation branch builds `summary` by appending each entry to
its group (lines 233-238): BUY and SELL go to their own groups, everything
else to HOLD. -/
def buildSummaryCS (evals : List Item) : Summary :=
  { buy := evals.filter (fun e => e.signal = "BUY")
    sell := evals.filter (fun e => e.signal = "SELL")
    hold := evals.filter (fun e => ¬ isActionable e.signal) }

/-- Python `new_last[sym] = {"signal": sig, "price": price, "time": ts}` (line 240),
iterated over the evaluated symbols starting from `{}` (line 194). -/
def newLastCS (now : String) (evals : List Item) : List (String × LastEntry) :=
  evals.foldl
    (fun m e => upsert m e.symbol { signal := e.signal, price := e.price, time := e.time.getD now })
    []

/-- The signal lines written in the local branch (line 234), in evaluation
order, into the freshly truncated `signals.txt`. -/
def localSignalLines (fmt : ℚ → String) (now : String) (evals : List Item) : List String :=
  (evals.filter (fun e => isActionable e.signal)).map
    (fun e => lineOf fmt (e.time.getD now) e.symbol e.signal e.price)

/-- The hold lines written in the local branch (line 237). -/
def localHoldLines (fmt : ℚ → String) (now : String) (evals : List Item) : List String :=
  (evals.filter (fun e => ¬ isActionable e.signal)).map
    (fun e => lineOf fmt (e.time.getD now) e.symbol e.signal e.price)

/-- Python `summary.get("BUY") or summary.get("SELL")` is truthy (lines 180-182):
a non-empty BUY list or a non-empty SELL list. -/
def actionablePresent (s : Summary) : Bool := !s.buy.isEmpty || !s.sell.isEmpty

/-- The groups in the order the summary branch iterates them (line 254),
each item tagged with its group name, which is also the signal the branch
writes (`sig = group`, line 259). -/
def taggedItems (s : Summary) : List (String × Item) :=
  s.buy.map (fun i => ("BUY", i)) ++ s.sell.map (fun i => ("SELL", i)) ++
    s.hold.map (fun i => ("HOLD", i))

/-- The summary branch (lines 247-265): rewrites the two text files from the
stored summary and rebuilds `last_signals.json` from it (`last[sym] = ...`,
line 264).  Returns (signal lines, hold lines, last map). -/
def summaryBranch (fmt : ℚ → String) (now : String) (s : Summary) :
    List String × List String × List (String × LastEntry) :=
  (taggedItems s).foldl
    (fun acc gi =>
      let g := gi.1
      let i := gi.2
      let ts := i.time.getD now
      let line := lineOf fmt ts i.symbol g i.price
      let last := upsert acc.2.2 i.symbol { signal := g, price := i.price, time := ts }
      if isActionable g then (acc.1 ++ [line], acc.2.1, last)
      else (acc.1, acc.2.1 ++ [line], last))
    ([], [], [])

/-- The notification phase (lines 268-288): no attempt at all when the
reloaded summary has no BUY and no SELL entries; otherwise one Zapier
attempt, and one SMTP fallback attempt exactly when Zapier reported
failure.  Returns (zapier attempts, email attempts). -/
def notifyCounts (s : Summary) (zapOk : Bool) : Nat × Nat :=
  if s.buy.length + s.sell.length = 0 then (0, 0)
  else if zapOk then (1, 0) else (1, 1)

/-- Observable outcome of one `main()` run. -/
structure RunOut where
  signalsTxt : List String
  holdsTxt : List String
  lastFile : List (String × LastEntry)
  summaryFile : Summary
  fetchCalls : Nat
  predictCalls : Nat
  zapCalls : Nat
  emailCalls : Nat
  completed : Bool
deriving DecidableEq, Repr

/-- Python `main()` (lines 173-289).  Parameters model the run's inputs and
external world:
* `stored` — the parsed `summary.json` at run start (line 177);
* `last_signals` — the parsed `last_signals.json` (line 192; the source
  loads it and never reads it again);
* `priorSignalsTxt`, `priorHoldsTxt` — the text files' contents before the
  run (both branches truncate them, lines 188-189 and 251-252);
* `evals` — the per-symbol items the local loop would build (line 231),
  one per symbol for which data was fetched;
* `extraFetches` — fetch attempts beyond the unconditional CoinGecko call
  per symbol (the yfinance fallbacks, line 200);
* `predicts` — `model.predict` calls made by the local loop (line 223);
* `zapOk`, `emailOk` — what the two notification channels report.

The local branch performs `SYMBOLS.length` primary fetches plus the
fallbacks, and persists `summary.json` and `last_signals.json` before the
notification phase runs; the summary branch fetches nothing, predicts
nothing and leaves `summary.json` as stored. -/
def mainCS (fmt : ℚ → String) (now : String) (stored : Summary)
    (last_signals : List (String × LastEntry))
    (priorSignalsTxt priorHoldsTxt : List String)
    (evals : List Item) (extraFetches predicts : Nat) (zapOk emailOk : Bool) : RunOut :=
  if actionablePresent stored then
    let sb := summaryBranch fmt now stored
    let nc := notifyCounts stored zapOk
    { signalsTxt := sb.1
      holdsTxt := sb.2.1
      lastFile := sb.2.2
      summaryFile := stored
      fetchCalls := 0
      predictCalls := 0
      zapCalls := nc.1
      emailCalls := nc.2
      completed := true }
  else
    let s := buildSummaryCS evals
    let nc := notifyCounts s zapOk
    { signalsTxt := localSignalLines fmt now evals
      holdsTxt := localHoldLines fmt now evals
      lastFile := newLastCS now evals
      summaryFile := s
      fetchCalls := SYMBOLS.length + extraFetches
      predictCalls := predicts
      zapCalls := nc.1
      emailCalls := nc.2
      completed := true }

/-! ## Classifier layer

`crypto_ai_backtest_multi.py` lines 62-94 (`ensure_model`) and 120-126 (the
guarded `model.predict`), and `crypto_signal.py` lines 144-153 (`load_model`)
and 206-226 (feature build + prediction).  A feature row is a list of the
ten schema columns; a trained sklearn model may raise on a mismatched
schema, so its batch prediction returns `Except`. -/

abbrev FeatRow := List ℚ

/-- A model object with the duck-typed `predict` interface: either a trained
classifier (whose prediction can raise, e.g. on a schema mismatch) or the
`Dummy` fallback whose `predict` returns `np.ones(len(X))` (lines 75-77 and
86-89). -/
inductive MLModel where
  | real (clf : List FeatRow → Except String (List Int))
  | dummy

/-- Python `model.predict(X)`. -/
def MLModel.predict : MLModel → List FeatRow → Except String (List Int)
  | .dummy, X => Except.ok (List.replicate X.length 1)
  | .real clf, X => clf X

/-- Lines 122-126: `ai_signal = model.predict(X_sym)` under `try`, with
`np.ones(len(X_sym))` substituted when the prediction raises. -/
def aiSignalOf (m : MLModel) (X : List FeatRow) : List Int :=
  match m.predict X with
  | Except.ok ys => ys
  | Except.error _ => List.replicate X.length 1

/-- Python `HORIZON = 3` (line 16). -/
def HORIZON : Nat := 3

/-- A training row: the feature columns plus the `Close` used for labelling. -/
structure TrainRow where
  feats : FeatRow
  close : ℚ
deriving DecidableEq, Repr

/-- Python `label = (future_return > 0.002)` with
`future_return = Close.shift(-HORIZON) / Close - 1` (lines 79-81). -/
def labelOf (c cAhead : ℚ) : Int :=
  if cAhead / c - 1 > 1 / 500 then 1 else 0

/-- Lines 79-84: pair each row with the row `HORIZON` bars ahead (the
`dropna` after the shift discards the last `HORIZON` rows) and label it. -/
def buildLabeled (rows : List TrainRow) : List (FeatRow × Int) :=
  (rows.zip (rows.drop HORIZON)).map (fun p => (p.1.feats, labelOf p.1.close p.2.close))

/-- Python `ensure_model` (lines 62-94).  `artifact` is the loaded `MODEL_FILE` when
it exists and unpickles (`None` covers both a missing and a corrupt file,
lines 63-68); `fit` stands for `RandomForestClassifier(...).fit` — it turns
the labelled rows into a trained predictor; `train_df` is the dataframe
passed in (`None` models Python `None`). -/
def ensure_model (artifact : Option MLModel)
    (fit : List (FeatRow × Int) → List FeatRow → Except String (List Int))
    (train_df : Option (List TrainRow)) : MLModel :=
  match artifact with
  | some m => m
  | none =>
    match train_df with
    | none => MLModel.dummy
    | some rows =>
      if rows.isEmpty then MLModel.dummy
      else if (buildLabeled rows).length < 50 then MLModel.dummy
      else MLModel.real (fit (buildLabeled rows))

/-- Python `load_model` (`crypto_signal.py`, lines 144-153): walk `MODEL_CANDIDATES`
and return the first artifact that exists and loads; a load failure falls
through to the next candidate; `None` when none loads. -/
def load_model (candidates : List (Option MLModel)) : Option MLModel :=
  match candidates with
  | [] => none
  | some m :: _ => some m
  | none :: rest => load_model rest

/-- Lines 206-226 of `crypto_signal.py`: `ml_pred` stays `None` when no model
loaded; otherwise the feature build and single-row prediction run under
`try`, and any exception leaves `ml_pred = None`.  `featPredict` stands for
the body of the `try` block evaluated against a given model. -/
def mlPredCS (model : Option MLModel) (featPredict : MLModel → Except String Int) : Option Int :=
  match model with
  | none => none
  | some m =>
    match featPredict m with
    | Except.ok v => some v
    | Except.error _ => none

/-! ## The `percent_b` feature and degenerate Bollinger bands

`build_features` (lines 25-48) computes
`percent_b = (Close - bb_low) / (bb_high - bb_low)` with pandas float
semantics: `0/0` is `NaN`, `x/0` with `x ≠ 0` is `±inf`, and `df.dropna()`
(line 48) removes rows holding `NaN` (not `±inf`).  The `ta` library's
bands are `mavg ± 2·std` where `mavg`/`std` are the rolling mean and the
rolling population (`ddof=0`) standard deviation of the last 20 closes; the
current row's close is the last element of its own window.  The standard
deviation is carried as an explicit nonnegative `std` with
`std² · n = Σ (x - mean)²`. -/

/-- A pandas float cell: a finite value, `NaN`, or a signed infinity. -/
inductive FVal where
  | val (q : ℚ)
  | nan
  | inf
  | ninf
deriving DecidableEq, Repr

/-- Float division as pandas performs it on Series. -/
def fdiv (a b : ℚ) : FVal :=
  if b = 0 then (if a = 0 then FVal.nan else if 0 < a then FVal.inf else FVal.ninf)
  else FVal.val (a / b)

/-- Rolling-window mean of the closes. -/
def windowMean (w : List ℚ) : ℚ := w.sum / (w.length : ℚ)

/-- Rolling-window population variance (`ddof=0`), i.e. `std²`. -/
def windowVar (w : List ℚ) : ℚ :=
  ((w.map (fun x => (x - windowMean w) ^ 2)).sum) / (w.length : ℚ)

/-- Python `bb_high = mavg + 2·std` for the window ending at the current row. -/
def bbHighOf (w : List ℚ) (std : ℚ) : ℚ := windowMean w + 2 * std

/-- Python `bb_low = mavg - 2·std`. -/
def bbLowOf (w : List ℚ) (std : ℚ) : ℚ := windowMean w - 2 * std

/-- The current row's `Close`: the last element of its rolling window. -/
def windowClose (w : List ℚ) : ℚ := w.getLastD 0

/-- The `percent_b` cell of the row whose trailing window of closes is `w`
(line 35). -/
def percentBAt (w : List ℚ) (std : ℚ) : FVal :=
  fdiv (windowClose w - bbLowOf w std) (bbHighOf w std - bbLowOf w std)

/-- Python `df.dropna()` (line 48) keeps the row only if its `percent_b` cell is
not `NaN` (a `NaN` in any column drops the row; `percent_b` alone decides
the cases at issue here). -/
def rowKept (pb : FVal) : Bool := pb ≠ FVal.nan

/-- Python `crypto_signal.py` line 217: the `percent_b` feature is computed only
when `tech.get("bb_high")` and `tech.get("bb_low")` are truthy (non-`None`,
non-zero), and the Python float division raises `ZeroDivisionError` when
`bb_high - bb_low == 0`; the guard's `else` arm yields `0`. -/
def percent_b_cs (close bb_high bb_low : ℚ) : Except String ℚ :=
  if bb_high ≠ 0 ∧ bb_low ≠ 0 then
    if bb_high - bb_low = 0 then Except.error "ZeroDivisionError: float division by zero"
    else Except.ok ((close - bb_low) / (bb_high - bb_low))
  else Except.ok 0

/-! ## Signal files

`utils/signals.py` (`log_signal`) appends; `crypto_signal.py` truncates
`signals.txt` at lines 188/251 before writing; `crypto_ai_backtest_multi.py`
opens `SIGNAL_FILE` with mode `'w'` when there are new signals (line 202)
and removes it otherwise (lines 207-211). -/

/-- The line `log_signal` builds:
`timestamp | symbol | signal | $price` (line 5 of `utils/signals.py`). -/
def log_signal_line (fmt : ℚ → String) (timestamp symbol signal : String) (price : ℚ) : String :=
  timestamp ++ " | " ++ symbol ++ " | " ++ signal ++ " | $" ++ fmt price

/-- Python `log_signal` (`utils/signals.py`, lines 3-8): open the file in append
mode and add one line; returns the new contents and the entry. -/
def log_signal (fmt : ℚ → String) (file : List String) (timestamp symbol signal : String)
    (price : ℚ) : List String × String :=
  (file ++ [log_signal_line fmt timestamp symbol signal price],
    log_signal_line fmt timestamp symbol signal price)

/-- Rendering of a backtest message (lines 170/176), formatting abstracted. -/
def renderMsg (fmt : ℚ → String) : Msg → String
  | Msg.buy sym price boll atrT =>
    "BUY " ++ sym ++ " at " ++ fmt price ++ " → Targets: Bollinger " ++ fmt boll ++
      ", ATR " ++ fmt atrT
  | Msg.sell sym price boll atrT =>
    "SELL " ++ sym ++ " at " ++ fmt price ++ " → Targets: Bollinger " ++ fmt boll ++
      ", ATR " ++ fmt atrT

/-- Lines 201-211 of `crypto_ai_backtest_multi.py`: with new signals the
file is rewritten (`'w'`) with exactly this run's stamped lines; with none
it is deleted (`os.remove`), whatever it held before.  `none` models a
missing file. -/
def writeSignalFileBT (fmt : ℚ → String) (now : String) (prior : Option (List String))
    (new_signals : List Msg) : Option (List String) :=
  if new_signals.isEmpty then none
  else some (new_signals.map (fun s => now ++ " - " ++ renderMsg fmt s))

/-! ## Helper lemmas -/

lemma list_sum_zero_of_nonneg {l : List ℚ} (hnn : ∀ y ∈ l, 0 ≤ y) (hs : l.sum = 0) :
    ∀ y ∈ l, y = 0 := by
  induction l with
  | nil => simp
  | cons a t ih =>
    have ha : 0 ≤ a := hnn a (by simp)
    have ht : ∀ y ∈ t, 0 ≤ y := fun y hy => hnn y (by simp [hy])
    have hts : 0 ≤ t.sum := List.sum_nonneg ht
    have hsum : a + t.sum = 0 := by simpa using hs
    intro y hy
    rcases List.mem_cons.mp hy with rfl | hy'
    · linarith
    · exact ih ht (by linarith) y hy'

lemma mem_eq_mean_of_var_zero (w : List ℚ) (hw : w ≠ []) (h : windowVar w = 0) :
    ∀ x ∈ w, x = windowMean w := by
  have hn : ((w.length : ℚ)) ≠ 0 := by
    have hlen : w.length ≠ 0 := (List.length_pos.mpr hw).ne'
    exact_mod_cast hlen
  have hS : (w.map (fun x => (x - windowMean w) ^ 2)).sum = 0 := by
    unfold windowVar at h
    rcases div_eq_zero_iff.mp h with h1 | h2
    · exact h1
    · exact absurd h2 hn
  intro x hx
  have hmem : (x - windowMean w) ^ 2 ∈ w.map (fun x => (x - windowMean w) ^ 2) :=
    List.mem_map.mpr ⟨x, hx, rfl⟩
  have hz : (x - windowMean w) ^ 2 = 0 := by
    refine list_sum_zero_of_nonneg ?_ hS _ hmem
    intro y hy
    rcases List.mem_map.mp hy with ⟨z, hz', rfl⟩
    positivity
  have hx0 : x - windowMean w = 0 := by
    exact pow_eq_zero_iff (two_ne_zero) |>.mp hz
  linarith

lemma getLastD_mem_q (w : List ℚ) (hw : w ≠ []) : w.getLastD 0 ∈ w := by
  have h1 : w.getLastD 0 = w.getLast hw := by
    rw [List.getLastD_eq_getLast?, List.getLast?_eq_getLast w hw]
    rfl
  rw [h1]
  exact List.getLast_mem hw

/-! ## Claim C7 -/

/-- C7: when a row's upper and lower Bollinger bands coincide, the rolling
standard deviation is zero, hence every close of the window — including the
row's own close, the window's last element — equals the rolling mean; the
`percent_b` numerator and denominator are then both zero, the pandas
division gives `NaN` (never an infinity or a finite junk value), and
`df.dropna()` drops the row before any feature vector reaches the model.
In `crypto_signal.py`, equal bands either raise `ZeroDivisionError` inside
the guarded feature build (so no prediction is made) or, when the bands are
falsy (zero), produce the literal `0`. -/
theorem percent_b_degenerate (w : List ℚ) (std : ℚ) (hw : w ≠ [])
    (hnn : 0 ≤ std) (hvar : std ^ 2 = windowVar w)
    (hdeg : bbHighOf w std = bbLowOf w std) :
    (percentBAt w std = FVal.nan ∧ rowKept (percentBAt w std) = false) ∧
      ∀ close bh bl : ℚ, bh = bl →
        percent_b_cs close bh bl = Except.error "ZeroDivisionError: float division by zero" ∨
          percent_b_cs close bh bl = Except.ok 0 := by
  have hstd : std = 0 := by
    unfold bbHighOf bbLowOf at hdeg
    linarith
  have hv : windowVar w = 0 := by
    rw [← hvar, hstd]
    ring
  have hclose : windowClose w = windowMean w :=
    mem_eq_mean_of_var_zero w hw hv _ (getLastD_mem_q w hw)
  have hnan : percentBAt w std = FVal.nan := by
    unfold percentBAt fdiv bbHighOf bbLowOf
    rw [hclose, hstd]
    norm_num
  refine ⟨⟨hnan, by simp [rowKept, hnan]⟩, ?_⟩
  intro close bh bl h
  by_cases h0 : bh ≠ 0 ∧ bl ≠ 0
  · left
    simp [percent_b_cs, h0, h]
  · right
    simp [percent_b_cs, h0]

/-- C7 witness: a 20-close window of constant price 5 with zero standard
deviation has coinciding bands; its `percent_b` is `NaN` and the row is
dropped, and the `crypto_signal.py` builder raises on the same bands. -/
def w20 : List ℚ := [5, 5, 5, 5, 5, 5, 5, 5, 5, 5, 5, 5, 5, 5, 5, 5, 5, 5, 5, 5]

theorem percent_b_degenerate_witness :
    percentBAt w20 0 = FVal.nan ∧
      (percent_b_cs 7 5 5 = Except.error "ZeroDivisionError: float division by zero" ∨
        percent_b_cs 7 5 5 = Except.ok 0) := by
  have hm : windowMean w20 = 5 := by
    norm_num [windowMean, w20]
  have hvar : (0 : ℚ) ^ 2 = windowVar w20 := by
    unfold windowVar
    rw [hm]
    norm_num [w20]
  have hdeg : bbHighOf w20 0 = bbLowOf w20 0 := by
    norm_num [bbHighOf, bbLowOf]
  have hw : w20 ≠ [] := by
    unfold w20
    exact List.cons_ne_nil _ _
  have h := percent_b_degenerate w20 0 hw (by norm_num) hvar hdeg
  exact ⟨h.1.1, h.2 7 5 5 rfl⟩

/-! ## Claim C2 -/

/-- Shorthand for a bar with a zero ATR, used in concrete evaluations. -/
def cbar (c l h : ℚ) : Bar := { close := c, bbLow := l, bbHigh := h, atr := 0 }

lemma shift1_ne_nil (xs : List Bool) (h : xs ≠ []) : shift1 xs = false :: xs.dropLast := by
  cases xs with
  | nil => exact absurd rfl h
  | cons a t => rfl

/-- C2 counterexample: the pandas `shift(1)` delays the edge test by one bar,
so the claimed characterisation in terms of the current and prior bar is
wrong in both directions.  Left: the Bollinger entry condition holds on the
current bar only and the classifier is constantly bullish, yet no BUY fires.
Right: the entry condition holds on both the current and the prior bar
(bars 2 and 3 of the run, i.e. not the first bar of the streak), yet BUY
fires. -/
theorem buy_edge_counterexample :
    (entriesOf [cbar 10 5 100, cbar 10 5 100, cbar 1 5 100] = [false, false, true] ∧
      buyEdge [cbar 10 5 100, cbar 10 5 100, cbar 1 5 100] [1, 1, 1] = false) ∧
    (entriesOf [cbar 10 5 100, cbar 1 5 100, cbar 1 5 100] = [false, true, true] ∧
      buyEdge [cbar 10 5 100, cbar 1 5 100, cbar 1 5 100] [1, 1, 1] = true) := by
  decide

/-- C2 (amended): in `analyze_and_backtest` the BUY transition fires iff the
conjunction of the Bollinger entry condition and a bullish classifier row
held on the second-to-last bar and did not hold on the third-to-last bar —
the `shift(1)` moves the edge one bar back, and the edge is taken on the
conjunction, not on the entry condition alone.  In `crypto_signal.py`,
`decide_signal` has no prior-bar input at all: with a bullish prediction it
returns BUY exactly when the current bar's entry condition holds
(level-triggered). -/
theorem buy_edge_amended (pre : List Bar) (aiPre : List Int) (x y z : Bar)
    (ax ay az : Int) (h : pre.length = aiPre.length) :
    (buyEdge (pre ++ [x, y, z]) (aiPre ++ [ax, ay, az]) =
      ((decide (y.close ≤ y.bbLow) && decide (ay = 1)) &&
        !(decide (x.close ≤ x.bbLow) && decide (ax = 1)))) ∧
    ∀ e exitB : Bool,
      decide_signal e exitB (some 1) =
        (if e then "BUY" else if exitB then "SELL" else "HOLD") := by
  constructor
  · have hlen : (List.map (fun b => decide (b.close ≤ b.bbLow)) pre).length = aiPre.length := by
      simpa using h
    have hcomb : combinedOf (pre ++ [x, y, z]) (aiPre ++ [ax, ay, az]) =
        combinedOf pre aiPre ++
          [decide (x.close ≤ x.bbLow) && decide (ax = 1),
           decide (y.close ≤ y.bbLow) && decide (ay = 1),
           decide (z.close ≤ z.bbLow) && decide (az = 1)] := by
      unfold combinedOf entriesOf
      rw [List.map_append, List.zipWith_append _ _ _ _ _ hlen]
      rfl
    set C := combinedOf pre aiPre with hCdef
    set cx := decide (x.close ≤ x.bbLow) && decide (ax = 1) with hcx
    set cy := decide (y.close ≤ y.bbLow) && decide (ay = 1) with hcy
    set cz := decide (z.close ≤ z.bbLow) && decide (az = 1) with hcz
    have hdl : (C ++ [cx, cy, cz]).dropLast = C ++ [cx, cy] := by
      have hsplit : C ++ [cx, cy, cz] = (C ++ [cx, cy]) ++ [cz] := by simp
      rw [hsplit, List.dropLast_concat]
    have hfe : finalEntriesOf (pre ++ [x, y, z]) (aiPre ++ [ax, ay, az]) =
        false :: (C ++ [cx, cy]) := by
      unfold finalEntriesOf
      rw [hcomb, shift1_ne_nil _ (by simp), hdl]
    have hil1 : ilocNeg1 (false :: (C ++ [cx, cy])) = cy := by
      unfold ilocNeg1
      have hsplit : false :: (C ++ [cx, cy]) = (false :: (C ++ [cx])) ++ [cy] := by simp
      rw [hsplit, List.getLastD_concat]
    have hil2 : ilocNeg2 (false :: (C ++ [cx, cy])) = cx := by
      unfold ilocNeg2
      have hsplit : false :: (C ++ [cx, cy]) = (false :: (C ++ [cx])) ++ [cy] := by simp
      rw [hsplit, List.dropLast_concat]
      have hsplit2 : false :: (C ++ [cx]) = (false :: C) ++ [cx] := by simp
      rw [hsplit2, List.getLastD_concat]
    have hlen2 : decide (2 ≤ (false :: (C ++ [cx, cy])).length) = true := by
      simp
    simp only [buyEdge, hfe, hil1, hil2, hlen2, Bool.true_and]
  · intro e exitB
    cases e <;> cases exitB <;> simp [decide_signal]

/-- C2 witness for the amended characterisation: with the conjunction true
on the middle bar and false on the first, BUY fires; and `decide_signal`
returns BUY from a bullish prediction and a current-bar entry alone. -/
theorem buy_edge_amended_witness :
    buyEdge [cbar 10 5 100, cbar 1 5 100, cbar 10 5 100] [1, 1, 1] = true ∧
      decide_signal true false (some 1) = "BUY" := by
  have h := buy_edge_amended [] [] (cbar 10 5 100) (cbar 1 5 100) (cbar 10 5 100) 1 1 1 rfl
  have h1 := h.1
  simp only [List.nil_append] at h1
  constructor
  · rw [h1]
    decide
  · have h2 := h.2 true false
    simpa using h2

/-! ## Claim C6 -/

/-- C6 counterexample: when the Bollinger entry (with a bullish classifier)
and the Bollinger exit both hold, `decide_signal` returns BUY, not SELL:
the `if`/`elif` ordering gives BUY priority unconditionally, with no
configuration to change it. -/
theorem tie_break_counterexample :
    decide_signal true true (some 1) = "BUY" ∧ decide_signal true true (some 1) ≠ "SELL" := by
  constructor <;> simp [decide_signal]

/-- C6 (amended): the tie-break is BUY-first, not SELL-first, and it is not
configurable.  `decide_signal` returns BUY whenever the entry condition and
a bullish prediction hold, regardless of the exit condition; and
`analyze_and_backtest` does not pick at all: a bar on which both
transitions fire produces both a BUY message and a SELL message, in that
order. -/
theorem tie_break_amended (exitB : Bool) (df : List Bar) (ai : List Int) (sym : String)
    (hb : buyEdge df ai = true) (hs : sellEdge df ai = true) :
    decide_signal true exitB (some 1) = "BUY" ∧
    sigsOf df ai sym =
      [Msg.buy sym (lastClose df) (lastBBHigh df) (lastClose df + ATR_MULTIPLIER * lastATR df),
       Msg.sell sym (lastClose df) (lastBBLow df) (lastClose df - ATR_MULTIPLIER * lastATR df)] := by
  constructor
  · simp [decide_signal]
  · simp [sigsOf, hb, hs]

/-- C6 witness: a degenerate middle bar (equal bands at the close) fires
both transitions; the run emits the BUY and the SELL message together. -/
theorem tie_break_amended_witness :
    decide_signal true true (some 1) = "BUY" ∧
    sigsOf [cbar 10 0 100, cbar 5 5 5, cbar 10 0 100] [1, 1, 1] "BTC-USD" =
      [Msg.buy "BTC-USD" 10 100 10, Msg.sell "BTC-USD" 10 0 10] := by
  have h := tie_break_amended true [cbar 10 0 100, cbar 5 5 5, cbar 10 0 100] [1, 1, 1]
    "BTC-USD" (by decide) (by decide)
  refine ⟨h.1, ?_⟩
  rw [h.2]
  norm_num [lastClose, lastBBHigh, lastBBLow, lastATR, ATR_MULTIPLIER, cbar]

/-! ## Association-list lemmas -/

lemma lookup_upsert_self {α : Type} (m : List (String × α)) (k : String) (v : α) :
    (upsert m k v).lookup k = some v := by
  induction m with
  | nil => simp [upsert]
  | cons p t ih =>
    obtain ⟨k2, v2⟩ := p
    by_cases hk : k2 = k
    · subst hk
      simp [upsert]
    · have hb : (k == k2) = false := beq_false_of_ne (Ne.symm hk)
      simp [upsert, hk, List.lookup, hb, ih]

lemma lookup_upsert_other {α : Type} (m : List (String × α)) (k k3 : String) (v : α)
    (h : k3 ≠ k) : (upsert m k v).lookup k3 = m.lookup k3 := by
  have hb : (k3 == k) = false := beq_false_of_ne h
  induction m with
  | nil => simp [upsert, List.lookup, hb]
  | cons p t ih =>
    obtain ⟨k2, v2⟩ := p
    by_cases hk : k2 = k
    · subst hk
      simp [upsert, List.lookup, hb]
    · simp only [upsert, if_neg hk, List.lookup]
      cases hc : k3 == k2 <;> simp [hc, ih]

lemma foldl_upsert_preserve (now : String) (t : List Item)
    (acc : List (String × LastEntry)) (sym : String) (hs : sym ∉ t.map Item.symbol) :
    (t.foldl
      (fun m e2 => upsert m e2.symbol
        { signal := e2.signal, price := e2.price, time := e2.time.getD now }) acc).lookup sym =
      acc.lookup sym := by
  induction t generalizing acc with
  | nil => rfl
  | cons a t2 ih =>
    have hne : sym ≠ a.symbol := by
      intro hcon
      exact hs (by simp [hcon])
    have hs2 : sym ∉ t2.map Item.symbol := by
      intro hcon
      exact hs (by simp [hcon])
    simpa [ih _ hs2] using lookup_upsert_other acc a.symbol sym _ hne

lemma newLastCS_lookup_aux (now : String) (evals : List Item)
    (acc : List (String × LastEntry)) (hnd : (evals.map Item.symbol).Nodup)
    (e : Item) (he : e ∈ evals) :
    (evals.foldl
      (fun m e2 => upsert m e2.symbol
        { signal := e2.signal, price := e2.price, time := e2.time.getD now }) acc).lookup e.symbol =
      some { signal := e.signal, price := e.price, time := e.time.getD now } := by
  induction evals generalizing acc with
  | nil => exact absurd he (by simp)
  | cons a t ih =>
    have hnd2 : (t.map Item.symbol).Nodup := (List.nodup_cons.mp (by simpa using hnd)).2
    rcases List.mem_cons.mp he with rfl | het
    · have hnotin : e.symbol ∉ t.map Item.symbol :=
        (List.nodup_cons.mp (by simpa using hnd)).1
      rw [List.foldl_cons, foldl_upsert_preserve now t _ _ hnotin]
      exact lookup_upsert_self acc e.symbol _
    · rw [List.foldl_cons]
      exact ih _ hnd2 het

lemma runReconcile_go_all_hold (st : ReconSt) (perSym : List (String × List Msg))
    (h : ∀ p ∈ perSym, p.2 = ([] : List Msg)) :
    runReconcile.go st perSym = Except.ok st := by
  induction perSym generalizing st with
  | nil => rfl
  | cons p rest ih =>
    obtain ⟨sym, sigs⟩ := p
    have hs : sigs = [] := h (sym, sigs) (List.mem_cons_self _ _)
    subst hs
    have hrest : ∀ q ∈ rest, q.2 = ([] : List Msg) := fun q hq => h q (List.mem_cons_of_mem _ hq)
    simpa [runReconcile.go, processSigs] using ih st hrest

/-! ## Claim C1 -/

/-- C1: the cited code cannot carry out the claimed reconciliation.
First conjunct: in `analyze_and_backtest`, a run in which BTC-USD produces
a fresh BUY message against an empty persisted state aborts with
`NameError` — line 189 reads the unbound name `results` — instead of
reporting the differing non-HOLD signal as changed.  Second conjunct:
`crypto_signal.py` loads `last_signals.json` and never reads it, so the
entire run outcome is independent of the persisted state.  Third conjunct:
concretely, a computed BUY identical to the persisted prior entry is still
notified (one Zapier attempt), although the claim requires a signal equal
to the persisted one not to be actionable. -/
theorem reconcile_code_evaluation :
    runReconcile [] [("BTC-USD", [Msg.buy "BTC-USD" 1 2 3])] =
      Except.error "NameError: name results is not defined" ∧
    (∀ (fmt : ℚ → String) (now : String) (stored : Summary)
        (ls1 ls2 : List (String × LastEntry)) (pst pht : List String)
        (evals : List Item) (ef p : Nat) (z em : Bool),
        mainCS fmt now stored ls1 pst pht evals ef p z em =
          mainCS fmt now stored ls2 pst pht evals ef p z em) ∧
    (mainCS (fun _ => "1.000000") "t" { buy := [], sell := [], hold := [] }
        [("BTC", { signal := "BUY", price := some 1, time := "t" })] [] []
        [{ symbol := "BTC", signal := "BUY", price := some 1, time := some "t" }]
        0 0 true true).zapCalls = 1 := by
  refine ⟨rfl, fun _ _ _ _ _ _ _ _ _ _ _ _ => rfl, ?_⟩
  rfl

/-! ## Claim C3 -/

/-- C3 counterexample: in `analyze_and_backtest` a run that evaluates
BTC-USD to HOLD (no message) leaves the stale persisted BUY message in
place — the persisted state is the prior map, not the full newly computed
map (which would record the HOLD evaluation and contains no BUY). -/
theorem persistence_counterexample :
    runReconcile [("BTC-USD", Msg.buy "BTC-USD" 1 2 3)] [("BTC-USD", [])] =
      Except.ok { last := [("BTC-USD", Msg.buy "BTC-USD" 1 2 3)], newSignals := [] } ∧
    [("BTC-USD", Msg.buy "BTC-USD" 1 2 3)] ≠ ([] : List (String × Msg)) := by
  exact ⟨rfl, by simp⟩

/-- C3 (amended): `crypto_signal.py` persists the full newly computed map:
for every evaluated symbol, `last_signals.json` ends up holding exactly
that run's value, HOLD included, whatever was stored before.  In
`analyze_and_backtest`, however, a run whose evaluations produce no
messages (all HOLD) persists the prior map unchanged — a HOLD evaluation
never overwrites a previously stored BUY/SELL message. -/
theorem persistence_amended (now : String) (evals : List Item)
    (hnd : (evals.map Item.symbol).Nodup) (e : Item) (he : e ∈ evals) :
    (newLastCS now evals).lookup e.symbol =
      some { signal := e.signal, price := e.price, time := e.time.getD now } ∧
    ∀ (prior : List (String × Msg)) (perSym : List (String × List Msg)),
      (∀ p ∈ perSym, p.2 = ([] : List Msg)) →
        runReconcile prior perSym = Except.ok { last := prior, newSignals := [] } := by
  constructor
  · exact newLastCS_lookup_aux now evals [] hnd e he
  · intro prior perSym h
    exact runReconcile_go_all_hold _ perSym h

/-- C3 witness: one evaluated symbol with a HOLD result is written to the
persisted map, and an all-HOLD backtest run returns the prior map intact. -/
theorem persistence_amended_witness :
    (newLastCS "T" [{ symbol := "BTC", signal := "HOLD", price := some 2, time := some "t0" }]).lookup "BTC" =
      some { signal := "HOLD", price := some 2, time := "t0" } ∧
    runReconcile [("BTC-USD", Msg.buy "BTC-USD" 1 2 3)] [("ETH-USD", [])] =
      Except.ok { last := [("BTC-USD", Msg.buy "BTC-USD" 1 2 3)], newSignals := [] } := by
  have h := persistence_amended "T"
    [{ symbol := "BTC", signal := "HOLD", price := some 2, time := some "t0" }]
    (by simp) { symbol := "BTC", signal := "HOLD", price := some 2, time := some "t0" }
    (by simp)
  exact ⟨h.1, h.2 _ _ (by simp)⟩

/-! ## Claim C4 -/

lemma zipWith_ai_ones (es : List Bool) :
    List.zipWith (fun e a => e && decide (a = (1 : Int))) es (List.replicate es.length 1) = es := by
  induction es with
  | nil => rfl
  | cons a t ih =>
    rw [List.length_cons, List.replicate_succ, List.zipWith_cons_cons, ih]
    simp

/-- The Bollinger-only BUY transition: the edge computed from
`shift1 entries` alone, with no classifier conjunct.  Comparison target for
the dummy-model case. -/
def buyEdgeBollingerOnly (df : List Bar) : Bool :=
  let fe := shift1 (entriesOf df)
  decide (2 ≤ fe.length) && ilocNeg1 fe && !ilocNeg2 fe

/-- C4 counterexample: in `crypto_signal.py` a missing artifact produces no
fallback predictor at all — `load_model` returns `None`, `ml_pred` stays
`None`, and `decide_signal` returns HOLD even though the Bollinger entry
condition is true: the missing model blocks BUY instead of approving it. -/
theorem fallback_counterexample :
    load_model [none, none] = none ∧
    mlPredCS (load_model [none, none]) (fun _ => Except.ok 1) = none ∧
    decide_signal true false
        (mlPredCS (load_model [none, none]) (fun _ => Except.ok 1)) = "HOLD" := by
  refine ⟨rfl, rfl, ?_⟩
  simp [decide_signal, mlPredCS, load_model]

/-- C4 (amended): in `analyze_and_backtest`, a missing (or unloadable)
artifact with fewer than 50 labelled training rows yields the `Dummy`
predictor, whose prediction is the constant bullish label for every row,
and the BUY transition then reduces to the Bollinger entry edge alone.  In
`crypto_signal.py` there is no such fallback: a missing artifact leaves
`ml_pred = None` and `decide_signal` never returns BUY. -/
theorem fallback_amended (fit : List (FeatRow × Int) → List FeatRow → Except String (List Int))
    (rows : List TrainRow) (hfew : (buildLabeled rows).length < 50)
    (df : List Bar) (X : List FeatRow) (hX : X.length = df.length) :
    ensure_model none fit (some rows) = MLModel.dummy ∧
    aiSignalOf (ensure_model none fit (some rows)) X = List.replicate df.length 1 ∧
    buyEdge df (aiSignalOf (ensure_model none fit (some rows)) X) = buyEdgeBollingerOnly df ∧
    (∀ e exitB : Bool, decide_signal e exitB none ≠ "BUY") := by
  have hdm : ensure_model none fit (some rows) = MLModel.dummy := by
    by_cases hemp : rows.isEmpty
    · simp [ensure_model, hemp]
    · simp [ensure_model, hemp, hfew]
  have hai : aiSignalOf (ensure_model none fit (some rows)) X = List.replicate df.length 1 := by
    rw [hdm]
    simp [aiSignalOf, MLModel.predict, hX]
  refine ⟨hdm, hai, ?_, ?_⟩
  · rw [hai]
    have hcomb : combinedOf df (List.replicate df.length 1) = entriesOf df := by
      have hlen : df.length = (entriesOf df).length := by simp [entriesOf]
      rw [combinedOf, hlen]
      exact zipWith_ai_ones (entriesOf df)
    simp [buyEdge, buyEdgeBollingerOnly, finalEntriesOf, hcomb]
  · intro e exitB
    cases exitB <;> simp [decide_signal]

/-- C4 witness: an empty training frame (zero labelled rows) yields the
dummy model, and the resulting BUY transition agrees with the pure
Bollinger edge on a concrete three-bar frame. -/
theorem fallback_amended_witness :
    ensure_model none (fun _ _ => Except.error "unused") (some []) = MLModel.dummy ∧
    buyEdge [cbar 10 5 100, cbar 1 5 100, cbar 10 5 100]
        (aiSignalOf (ensure_model none (fun _ _ => Except.error "unused") (some []))
          [[1], [2], [3]]) =
      buyEdgeBollingerOnly [cbar 10 5 100, cbar 1 5 100, cbar 10 5 100] := by
  have h := fallback_amended (fun _ _ => Except.error "unused") []
    (by norm_num [buildLabeled]) [cbar 10 5 100, cbar 1 5 100, cbar 10 5 100]
    [[1], [2], [3]] rfl
  exact ⟨h.1, h.2.2.1⟩

/-! ## Claim C5 -/

/-- C5 counterexample: a model whose `predict` raises — as sklearn does on
a feature-schema mismatch — does not fail the run.  `analyze_and_backtest`
substitutes the constant bullish prediction for every row (line 126), and
`crypto_signal.py` silently sets `ml_pred = None` (line 226). -/
theorem schema_mismatch_counterexample :
    aiSignalOf
        (MLModel.real (fun _ =>
          Except.error "ValueError: The feature names should match those that were passed during fit"))
        [[1], [2]] = [1, 1] ∧
    mlPredCS (some (MLModel.real (fun _ => Except.error "ValueError")))
        (fun _ => Except.error "ValueError") = none := by
  exact ⟨rfl, rfl⟩

/-- C5 (amended): a failed prediction is caught, not propagated: the
backtest substitutes `np.ones`, a bullish default prediction for every row;
`crypto_signal.py` drops to `ml_pred = None`, with which `decide_signal`
never returns BUY; in both programs the run continues to completion. -/
theorem schema_mismatch_amended (msg : String) (X : List FeatRow) (m : Option MLModel)
    (fp : MLModel → Except String Int) (hfp : ∀ mm, fp mm = Except.error msg) :
    aiSignalOf (MLModel.real (fun _ => Except.error msg)) X = List.replicate X.length 1 ∧
    mlPredCS m fp = none ∧
    ∀ e exitB : Bool, decide_signal e exitB (mlPredCS m fp) ≠ "BUY" := by
  have hnone : mlPredCS m fp = none := by
    cases m with
    | none => rfl
    | some mm => simp [mlPredCS, hfp]
  refine ⟨rfl, hnone, ?_⟩
  intro e exitB
  rw [hnone]
  cases exitB <;> simp [decide_signal]

/-- C5 witness: a concrete always-raising predictor on a one-row batch. -/
theorem schema_mismatch_amended_witness :
    aiSignalOf (MLModel.real (fun _ => Except.error "ValueError")) [[0]] = [1] ∧
    mlPredCS (some (MLModel.real (fun _ => Except.error "ValueError")))
        (fun _ => Except.error "ValueError") = none := by
  have h := schema_mismatch_amended "ValueError" [[0]]
    (some (MLModel.real (fun _ => Except.error "ValueError")))
    (fun _ => Except.error "ValueError") (fun _ => rfl)
  exact ⟨h.1, h.2.1⟩

/-! ## Claim C8 -/

/-- C8 counterexample: runs do not preserve the signal log.  First
conjunct: a backtest run with no new signals deletes `signals.txt` even
when it held lines from earlier runs.  Second conjunct: a
`crypto_signal.py` local run truncates `signals.txt` before writing, so a
line written by an earlier run is gone from the resulting file. -/
theorem log_truncation_counterexample :
    writeSignalFileBT (fun _ => "") "t1"
        (some ["t0 - BUY BTC-USD at 1 → Targets: Bollinger 2, ATR 3"]) [] = none ∧
    "2025-01-01 00:00:00 UTC | BTC | BUY | $1.000000" ∉
      (mainCS (fun _ => "2.000000") "t1" { buy := [], sell := [], hold := [] } []
        ["2025-01-01 00:00:00 UTC | BTC | BUY | $1.000000"] []
        [{ symbol := "ETH", signal := "SELL", price := some 2, time := some "t1" }]
        0 0 true true).signalsTxt := by
  refine ⟨rfl, ?_⟩
  decide

/-- C8 (amended): within a run the log is append-only, one line per
actionable decision in the format `timestamp | symbol | signal | $price`:
`log_signal` appends exactly one such line and returns it, and the local
branch of `crypto_signal.py` ends the run with exactly this run's BUY/SELL
lines in evaluation order.  Across runs nothing is preserved: the
resulting `signals.txt` does not depend on its prior contents in either
program — `crypto_signal.py` truncates the file first, and the backtest
rewrites it from scratch or deletes it. -/
theorem log_append_amended (fmt : ℚ → String) (file : List String)
    (ts sym sig : String) (p : ℚ) (now : String) (stored : Summary)
    (ls : List (String × LastEntry)) (pst1 pst2 pht1 pht2 : List String)
    (evals : List Item) (ef pr : Nat) (z em : Bool)
    (priorBT1 priorBT2 : Option (List String)) (msgs : List Msg)
    (hna : actionablePresent stored = false) :
    log_signal fmt file ts sym sig p =
      (file ++ [ts ++ " | " ++ sym ++ " | " ++ sig ++ " | $" ++ fmt p],
        ts ++ " | " ++ sym ++ " | " ++ sig ++ " | $" ++ fmt p) ∧
    (mainCS fmt now stored ls pst1 pht1 evals ef pr z em).signalsTxt =
      (mainCS fmt now stored ls pst2 pht2 evals ef pr z em).signalsTxt ∧
    (mainCS fmt now stored ls pst1 pht1 evals ef pr z em).signalsTxt =
      (evals.filter (fun e => isActionable e.signal)).map
        (fun e => lineOf fmt (e.time.getD now) e.symbol e.signal e.price) ∧
    writeSignalFileBT fmt now priorBT1 msgs = writeSignalFileBT fmt now priorBT2 msgs := by
  refine ⟨rfl, rfl, ?_, rfl⟩
  simp [mainCS, hna, localSignalLines]

/-- C8 witness: a run over one SELL evaluation writes exactly its one
formatted line, whatever the file held before. -/
theorem log_append_amended_witness :
    log_signal (fun _ => "2.000000") [] "t1" "ETH" "SELL" 2 =
      (["t1 | ETH | SELL | $2.000000"], "t1 | ETH | SELL | $2.000000") ∧
    (mainCS (fun _ => "2.000000") "t1" { buy := [], sell := [], hold := [] } []
        ["old line"] [] [{ symbol := "ETH", signal := "SELL", price := some 2, time := some "t1" }]
        0 0 true true).signalsTxt = ["t1 | ETH | SELL | $2.000000"] := by
  have h := log_append_amended (fun _ => "2.000000") [] "t1" "ETH" "SELL" 2 "t1"
    { buy := [], sell := [], hold := [] } [] ["old line"] [] [] []
    [{ symbol := "ETH", signal := "SELL", price := some 2, time := some "t1" }]
    0 0 true true none none [] rfl
  refine ⟨h.1, ?_⟩
  rw [h.2.2.1]
  decide

/-! ## Claim C9 -/

/-- The summary the notification phase of `crypto_signal.py` reloads from
disk at line 270: the stored one if it was actionable, else the one the
local branch just computed and saved. -/
def runSummary (stored : Summary) (evals : List Item) : Summary :=
  if actionablePresent stored then stored else buildSummaryCS evals

lemma notifyCounts_fail (s : Summary) (h : s.buy.length + s.sell.length ≠ 0) :
    notifyCounts s false = (1, 1) := by
  simp [notifyCounts, h]

lemma notifyCounts_email_le (s : Summary) (z : Bool) : (notifyCounts s z).2 ≤ 1 := by
  unfold notifyCounts
  split
  · simp
  · split <;> simp

lemma mainCS_summaryFile (fmt : ℚ → String) (now : String) (stored : Summary)
    (ls : List (String × LastEntry)) (pst pht : List String) (evals : List Item)
    (ef pr : Nat) (z em : Bool) :
    (mainCS fmt now stored ls pst pht evals ef pr z em).summaryFile =
      runSummary stored evals := by
  unfold mainCS runSummary
  split <;> rfl

lemma mainCS_zapCalls (fmt : ℚ → String) (now : String) (stored : Summary)
    (ls : List (String × LastEntry)) (pst pht : List String) (evals : List Item)
    (ef pr : Nat) (z em : Bool) :
    (mainCS fmt now stored ls pst pht evals ef pr z em).zapCalls =
      (notifyCounts (runSummary stored evals) z).1 := by
  unfold mainCS runSummary
  split <;> rfl

lemma mainCS_emailCalls (fmt : ℚ → String) (now : String) (stored : Summary)
    (ls : List (String × LastEntry)) (pst pht : List String) (evals : List Item)
    (ef pr : Nat) (z em : Bool) :
    (mainCS fmt now stored ls pst pht evals ef pr z em).emailCalls =
      (notifyCounts (runSummary stored evals) z).2 := by
  unfold mainCS runSummary
  split <;> rfl

lemma mainCS_notify_independent (fmt : ℚ → String) (now : String) (stored : Summary)
    (ls : List (String × LastEntry)) (pst pht : List String) (evals : List Item)
    (ef pr : Nat) (z1 em1 z2 em2 : Bool) :
    (mainCS fmt now stored ls pst pht evals ef pr z1 em1).lastFile =
      (mainCS fmt now stored ls pst pht evals ef pr z2 em2).lastFile ∧
    (mainCS fmt now stored ls pst pht evals ef pr z1 em1).summaryFile =
      (mainCS fmt now stored ls pst pht evals ef pr z2 em2).summaryFile ∧
    (mainCS fmt now stored ls pst pht evals ef pr z1 em1).signalsTxt =
      (mainCS fmt now stored ls pst pht evals ef pr z2 em2).signalsTxt := by
  unfold mainCS
  split <;> exact ⟨rfl, rfl, rfl⟩

/-- C9: in `crypto_signal.py`, when notifications are due (the reloaded
summary has at least one BUY or SELL entry) and the Zapier webhook reports
failure, the SMTP fallback is attempted exactly once; the fallback is
never attempted more than once under any outcome; and the persisted
`last_signals.json`, the written `summary.json` and the signal lines are
identical whatever the two channels report — they were saved before the
notification phase — with the run completing either way. -/
theorem notification_fallback (fmt : ℚ → String) (now : String) (stored : Summary)
    (ls : List (String × LastEntry)) (pst pht : List String) (evals : List Item)
    (ef pr : Nat) (emailOk : Bool)
    (hact : (runSummary stored evals).buy.length + (runSummary stored evals).sell.length ≠ 0) :
    (mainCS fmt now stored ls pst pht evals ef pr false emailOk).zapCalls = 1 ∧
    (mainCS fmt now stored ls pst pht evals ef pr false emailOk).emailCalls = 1 ∧
    (mainCS fmt now stored ls pst pht evals ef pr false emailOk).completed = true ∧
    ∀ z em : Bool,
      (mainCS fmt now stored ls pst pht evals ef pr z em).emailCalls ≤ 1 ∧
      (mainCS fmt now stored ls pst pht evals ef pr z em).lastFile =
        (mainCS fmt now stored ls pst pht evals ef pr false emailOk).lastFile ∧
      (mainCS fmt now stored ls pst pht evals ef pr z em).summaryFile =
        (mainCS fmt now stored ls pst pht evals ef pr false emailOk).summaryFile ∧
      (mainCS fmt now stored ls pst pht evals ef pr z em).completed = true := by
  have hz := mainCS_zapCalls fmt now stored ls pst pht evals ef pr false emailOk
  have he := mainCS_emailCalls fmt now stored ls pst pht evals ef pr false emailOk
  have hcomp : ∀ z em : Bool,
      (mainCS fmt now stored ls pst pht evals ef pr z em).completed = true := by
    intro z em
    unfold mainCS
    split <;> rfl
  refine ⟨?_, ?_, hcomp false emailOk, ?_⟩
  · rw [hz, notifyCounts_fail _ hact]
  · rw [he, notifyCounts_fail _ hact]
  · intro z em
    refine ⟨?_, ?_, ?_, hcomp z em⟩
    · rw [mainCS_emailCalls]
      exact notifyCounts_email_le _ z
    · exact (mainCS_notify_independent fmt now stored ls pst pht evals ef pr z em false emailOk).1
    · exact (mainCS_notify_independent fmt now stored ls pst pht evals ef pr z em false emailOk).2.1

/-- C9 witness: a run whose local computation yields one BUY, with both
channels failing: one Zapier attempt, one fallback attempt, state persisted
and the run completed. -/
theorem notification_fallback_witness :
    (mainCS (fun _ => "1.000000") "t" { buy := [], sell := [], hold := [] } [] [] []
        [{ symbol := "BTC", signal := "BUY", price := some 1, time := some "t" }]
        0 0 false false).zapCalls = 1 ∧
    (mainCS (fun _ => "1.000000") "t" { buy := [], sell := [], hold := [] } [] [] []
        [{ symbol := "BTC", signal := "BUY", price := some 1, time := some "t" }]
        0 0 false false).emailCalls = 1 ∧
    (mainCS (fun _ => "1.000000") "t" { buy := [], sell := [], hold := [] } [] [] []
        [{ symbol := "BTC", signal := "BUY", price := some 1, time := some "t" }]
        0 0 false false).completed = true := by
  have h := notification_fallback (fun _ => "1.000000") "t"
    { buy := [], sell := [], hold := [] } [] [] []
    [{ symbol := "BTC", signal := "BUY", price := some 1, time := some "t" }]
    0 0 false (by decide)
  exact ⟨h.1, h.2.1, h.2.2.1⟩

/-! ## Claim C10 -/

lemma actionable_lengths (s : Summary) (h : actionablePresent s = true) :
    s.buy.length + s.sell.length ≠ 0 := by
  cases hb : s.buy <;> cases hs : s.sell <;>
    simp_all [actionablePresent]

lemma notifyCounts_zap (s : Summary) (h : s.buy.length + s.sell.length ≠ 0) (z : Bool) :
    (notifyCounts s z).1 = 1 := by
  unfold notifyCounts
  rw [if_neg h]
  cases z <;> rfl

/-- C10: a stored `summary.json` holding at least one BUY or SELL entry
makes the run bypass computation entirely: no fetch attempts, no model
predictions, `summary.json` keeps the stored contents, the notification
phase re-sends them (one Zapier attempt), and the whole run outcome — the
rewritten text files and `last_signals.json` included — is a function of
the stored summary alone, independent of what local evaluation would have
produced. -/
theorem summary_replay (fmt : ℚ → String) (now : String) (stored : Summary)
    (ls : List (String × LastEntry)) (pst pht : List String) (evals : List Item)
    (ef pr : Nat) (z em : Bool) (h : actionablePresent stored = true) :
    (mainCS fmt now stored ls pst pht evals ef pr z em).fetchCalls = 0 ∧
    (mainCS fmt now stored ls pst pht evals ef pr z em).predictCalls = 0 ∧
    (mainCS fmt now stored ls pst pht evals ef pr z em).summaryFile = stored ∧
    (mainCS fmt now stored ls pst pht evals ef pr z em).zapCalls = 1 ∧
    ∀ (evals2 : List Item) (ef2 pr2 : Nat),
      mainCS fmt now stored ls pst pht evals2 ef2 pr2 z em =
        mainCS fmt now stored ls pst pht evals ef pr z em := by
  have hlen := actionable_lengths stored h
  have hrs : runSummary stored evals = stored := by
    simp [runSummary, h]
  refine ⟨?_, ?_, ?_, ?_, ?_⟩
  · simp [mainCS, h]
  · simp [mainCS, h]
  · rw [mainCS_summaryFile, hrs]
  · rw [mainCS_zapCalls, hrs]
    exact notifyCounts_zap stored hlen z
  · intro evals2 ef2 pr2
    simp [mainCS, h]

/-- C10 witness: a stored summary with one BUY entry is replayed with no
fetches and no predictions, and is re-notified. -/
theorem summary_replay_witness :
    (mainCS (fun _ => "1.000000") "t"
        { buy := [{ symbol := "BTC", signal := "BUY", price := some 1, time := some "t0" }],
          sell := [], hold := [] } [] [] []
        [{ symbol := "ETH", signal := "SELL", price := some 2, time := some "t" }]
        3 4 true true).fetchCalls = 0 ∧
    (mainCS (fun _ => "1.000000") "t"
        { buy := [{ symbol := "BTC", signal := "BUY", price := some 1, time := some "t0" }],
          sell := [], hold := [] } [] [] []
        [{ symbol := "ETH", signal := "SELL", price := some 2, time := some "t" }]
        3 4 true true).zapCalls = 1 := by
  have h := summary_replay (fun _ => "1.000000") "t"
    { buy := [{ symbol := "BTC", signal := "BUY", price := some 1, time := some "t0" }],
      sell := [], hold := [] } [] [] []
    [{ symbol := "ETH", signal := "SELL", price := some 2, time := some "t" }]
    3 4 true true rfl
  exact ⟨h.1, h.2.2.2.1⟩

end CryptoBot
